import Mathlib

/-!
Shallow embedding of the cost-estimation core of the `cloudflare-observer`
repository (`src/lib/cloudflare/types.ts`, `src/lib/cloudflare/metrics.ts`,
`src/lib/cloudflare/graphql.ts`, `src/lib/cloudflare/api.ts`).

JavaScript numbers are modelled as rationals (ℚ): every operation the
embedded code performs (addition, subtraction, multiplication, division,
`Math.max`) is exact on the inputs the claims quantify over, so ℚ is a
faithful idealisation of IEEE doubles for the algebraic identities at stake.
Asynchronous fetching is modelled by passing the already-fetched group lists
to the pure aggregation cores, and a fallible aggregator outcome by
`Except String ProductUsage` (the error payload is the message that
`captureError` copies into a `ServiceError`).
-/

/-! ## Data model (`types.ts`) -/

/-- `UsageMetric` from `types.ts`. -/
structure UsageMetric where
  name : String
  current : ℚ
  limit : ℚ
  unit : String
  percentage : ℚ
  overageCost : ℚ
  rate : String
deriving Repr, DecidableEq

/-- `ProductUsage` from `types.ts`. -/
structure ProductUsage where
  product : String
  metrics : List UsageMetric
  totalOverageCost : ℚ
deriving Repr, DecidableEq

/-- `ServiceError` from `types.ts`. -/
structure ServiceError where
  service : String
  message : String
deriving Repr, DecidableEq

/-- Calendar parts of a JS `Date` value (`month` is the 0-based index
returned by `getMonth`). Only the wall-clock fields matter for the claims;
the timezone in which they are interpreted is noted at each use site. -/
structure DateTimeParts where
  year : Nat
  month : Nat
  day : Nat
  hour : Nat
  minute : Nat
  second : Nat
  millisecond : Nat
deriving Repr, DecidableEq

/-- The year/month/day of the clock reading taken by `new Date()`. -/
structure LocalDate where
  year : Nat
  month : Nat
  day : Nat
deriving Repr, DecidableEq

/-- The `billingPeriod` field of `CloudflareUsageData`; the source calls the
second field `end` (a Lean keyword), here `ending`. -/
structure BillingPeriod where
  start : DateTimeParts
  ending : DateTimeParts
deriving Repr, DecidableEq

/-- `CloudflareUsageData` from `types.ts`. -/
structure CloudflareUsageData where
  r2 : Option ProductUsage
  workers : Option ProductUsage
  kv : Option ProductUsage
  d1 : Option ProductUsage
  images : Option ProductUsage
  ai : Option ProductUsage
  vectorize : Option ProductUsage
  errors : List ServiceError
  totalEstimatedCost : ℚ
  billingPeriod : BillingPeriod
deriving Repr, DecidableEq

/-! ## Pricing tables (`types.ts`) -/

namespace WORKERS_PAID_LIMITS

def requestsPerMonth : ℚ := 10000000

def cpuMsPerMonth : ℚ := 30000000

def requestOveragePer1M : ℚ := 3 / 10

def cpuOveragePer1M : ℚ := 2 / 100

def baseCost : ℚ := 5

end WORKERS_PAID_LIMITS

namespace R2_LIMITS

def storageGB : ℚ := 10

def classAOperations : ℚ := 1000000

def classBOperations : ℚ := 10000000

def storagePerGB : ℚ := 15 / 1000

def classAOveragePer1M : ℚ := 45 / 10

def classBOveragePer1M : ℚ := 36 / 100

end R2_LIMITS

namespace KV_PAID_LIMITS

def storageGB : ℚ := 1

def readsPerMonth : ℚ := 10000000

def writesPerMonth : ℚ := 1000000

def deletesPerMonth : ℚ := 1000000

def listsPerMonth : ℚ := 1000000

def storagePerGB : ℚ := 1 / 2

def readOveragePer1M : ℚ := 1 / 2

def writeOveragePer1M : ℚ := 5

def deleteOveragePer1M : ℚ := 5

def listOveragePer1M : ℚ := 5

end KV_PAID_LIMITS

namespace D1_LIMITS

def rowsReadPerMonth : ℚ := 25000000000

def rowsWrittenPerMonth : ℚ := 50000000

def storageGB : ℚ := 5

def rowsReadOveragePer1M : ℚ := 1 / 1000

def rowsWrittenOveragePer1M : ℚ := 1

def storageOveragePerGB : ℚ := 75 / 100

end D1_LIMITS

namespace IMAGES_LIMITS

def transformationsPerMonth : ℚ := 0

def deliveredPer100K : ℚ := 1

end IMAGES_LIMITS

namespace WORKERS_AI_LIMITS

def neuronsPerDay : ℚ := 10000

def neuronOveragePer1K : ℚ := 11 / 1000

end WORKERS_AI_LIMITS

namespace VECTORIZE_LIMITS

def queriedDimensionsPerMonth : ℚ := 30000000

def storedDimensionsPerMonth : ℚ := 5000000

def queriedOveragePer1M : ℚ := 1 / 100

def storedOveragePer1M : ℚ := 5 / 100

end VECTORIZE_LIMITS

/-! ## Overage calculators and builders (`metrics.ts`) -/

/-- `calculateOverage` from `metrics.ts`. -/
def calculateOverage (current limit costPer1M : ℚ) : ℚ :=
  let overage := max 0 (current - limit)
  overage / 1000000 * costPer1M

/-- `calculateStorageOverage` from `metrics.ts`. -/
def calculateStorageOverage (currentGB limitGB costPerGB : ℚ) : ℚ :=
  let overage := max 0 (currentGB - limitGB)
  overage * costPerGB

/-- `calculatePer100KCost` from `metrics.ts`. -/
def calculatePer100KCost (current costPer100K : ℚ) : ℚ :=
  current / 100000 * costPer100K

/-- `calculatePer1KCost` from `metrics.ts`. -/
def calculatePer1KCost (current limit costPer1K : ℚ) : ℚ :=
  let overage := max 0 (current - limit)
  overage / 1000 * costPer1K

/-- `MetricInput` from `metrics.ts`. -/
structure MetricInput where
  name : String
  current : ℚ
  limit : ℚ
  unit : String
  rate : String
deriving Repr, DecidableEq

/-- `buildMetric` from `metrics.ts`. -/
def buildMetric (input : MetricInput) (overageCost : ℚ) : UsageMetric :=
  { name := input.name
    current := input.current
    limit := input.limit
    unit := input.unit
    percentage := if input.limit > 0 then input.current / input.limit * 100 else 0
    overageCost := overageCost
    rate := input.rate }

/-- `buildProductUsage` from `metrics.ts`. -/
def buildProductUsage (product : String) (metrics : List UsageMetric) : ProductUsage :=
  let totalOverageCost := metrics.foldl (fun sum m => sum + m.overageCost) 0
  { product := product, metrics := metrics, totalOverageCost := totalOverageCost }

/-- `sumField` from `metrics.ts` (the `?? 0` fallback is a no-op here because
the getter is total on the embedded records). -/
def sumField {T : Type} (items : List T) (getter : T → ℚ) : ℚ :=
  items.foldl (fun sum item => sum + getter item) 0

/-- Modelled from the spec: `bytesToGB` is imported from `src/lib/formatters`,
a file absent from the provided sources; the spec fixes the conversion as
division by 1024³ (binary GiB), matching the inline
`storageBytes / (1024 * 1024 * 1024)` of the earlier monolithic revision. -/
def bytesToGB (bytes : ℚ) : ℚ :=
  bytes / (1024 * 1024 * 1024)

/-! ## Calendar helpers (`graphql.ts` and the `Date` uses in `api.ts`) -/

/-- Gregorian leap-year rule implemented by the JS `Date` calendar. -/
def isLeapYear (y : Nat) : Bool :=
  (y % 4 == 0 && y % 100 != 0) || y % 400 == 0

/-- Number of days in 0-based month `m` of year `y` on the JS `Date`
calendar. -/
def daysInMonthOf (y m : Nat) : Nat :=
  if m = 1 then (if isLeapYear y then 29 else 28)
  else if m = 3 ∨ m = 5 ∨ m = 8 ∨ m = 10 then 30
  else 31

/-- The calendar parts of `new Date(y, m, 0)`: the month index is first
normalised (overflow rolls into later years) and day 0 then backs up to the
last day of the preceding month, at 00:00:00.000. -/
def jsDateMonthDay0 (y m : Nat) : DateTimeParts :=
  let yn := y + m / 12
  let mn := m % 12
  if mn = 0 then
    ⟨yn - 1, 11, daysInMonthOf (yn - 1) 11, 0, 0, 0, 0⟩
  else
    ⟨yn, mn - 1, daysInMonthOf yn (mn - 1), 0, 0, 0, 0⟩

/-- `getMonthStart` from `graphql.ts`: the current date with `setUTCDate(1)`
and `setUTCHours(0,0,0,0)` — UTC parts of the first instant of the month. -/
def getMonthStartParts (now : LocalDate) : DateTimeParts :=
  ⟨now.year, now.month, 1, 0, 0, 0, 0⟩

/-- `getMonthEnd` from `graphql.ts`: `setUTCMonth(m+1)`, `setUTCDate(0)`,
`setUTCHours(23,59,59,999)` — UTC parts of the last millisecond of the
month. -/
def getMonthEndParts (now : LocalDate) : DateTimeParts :=
  let d := jsDateMonthDay0 now.year (now.month + 1)
  ⟨d.year, d.month, d.day, 23, 59, 59, 999⟩

/-- The `billingPeriod` computed inside `$fetchAllUsage` (`api.ts` lines
357-368): `new Date(now.getFullYear(), now.getMonth(), 1)` and
`new Date(now.getFullYear(), now.getMonth() + 1, 0)`. Both use the
local-time `Date` constructor, and the second is the last day of the month
at local midnight; the parts below are therefore local-time parts, which
`toISOString()` then renders in UTC. -/
def billingPeriodOf (now : LocalDate) : BillingPeriod :=
  { start := ⟨now.year, now.month, 1, 0, 0, 0, 0⟩
    ending := jsDateMonthDay0 now.year (now.month + 1) }

/-! ## Raw counter group records (`types.ts`) -/

/-- The two enumerated R2 operation-class sets from `types.ts`. -/
def R2_CLASS_A_OPERATIONS : List String :=
  ["ListBuckets", "PutBucket", "ListObjects", "PutObject", "CopyObject",
   "CompleteMultipartUpload", "CreateMultipartUpload", "ListMultipartUploads",
   "UploadPart", "UploadPartCopy", "ListParts", "PutBucketEncryption",
   "PutBucketCors", "PutBucketLifecycleConfiguration"]

def R2_CLASS_B_OPERATIONS : List String :=
  ["HeadBucket", "HeadObject", "GetObject", "UsageSummary",
   "GetBucketEncryption", "GetBucketLocation", "GetBucketCors",
   "GetBucketLifecycleConfiguration", "DeleteObject", "DeleteBucket",
   "AbortMultipartUpload"]

structure R2OpDimensions where
  actionType : String
deriving Repr, DecidableEq

structure R2OpSum where
  requests : ℚ
deriving Repr, DecidableEq

/-- `R2OperationsGroup` from `types.ts`. -/
structure R2OperationsGroup where
  dimensions : R2OpDimensions
  sum : R2OpSum
deriving Repr, DecidableEq

structure R2StorageMax where
  payloadSize : ℚ
  metadataSize : ℚ
  objectCount : ℚ
deriving Repr, DecidableEq

/-- `R2StorageGroup` from `types.ts`. -/
structure R2StorageGroup where
  max : R2StorageMax
deriving Repr, DecidableEq

structure KVOpDimensions where
  actionType : String
deriving Repr, DecidableEq

structure KVOpSum where
  requests : ℚ
deriving Repr, DecidableEq

/-- `KVOperationsGroup` from `types.ts`. -/
structure KVOperationsGroup where
  dimensions : KVOpDimensions
  sum : KVOpSum
deriving Repr, DecidableEq

structure KVStorageMax where
  byteCount : ℚ
  keyCount : ℚ
deriving Repr, DecidableEq

/-- `KVStorageGroup` from `types.ts`. -/
structure KVStorageGroup where
  max : KVStorageMax
deriving Repr, DecidableEq

structure D1AnalyticsSum where
  rowsRead : ℚ
  rowsWritten : ℚ
deriving Repr, DecidableEq

/-- `D1AnalyticsGroup` from `types.ts` (only the fields the aggregator
reads). -/
structure D1AnalyticsGroup where
  databaseId : String
  sum : D1AnalyticsSum
deriving Repr, DecidableEq

structure D1StorageMax where
  databaseSizeBytes : ℚ
deriving Repr, DecidableEq

/-- `D1StorageGroup` from `types.ts`. -/
structure D1StorageGroup where
  databaseId : String
  max : D1StorageMax
deriving Repr, DecidableEq

structure WorkersInvocationSum where
  requests : ℚ
deriving Repr, DecidableEq

structure WorkersInvocationQuantiles where
  cpuTimeP50 : ℚ
deriving Repr, DecidableEq

/-- One `workersInvocationsAdaptive` group (`api.ts`). -/
structure WorkersInvocationGroup where
  sum : WorkersInvocationSum
  quantiles : WorkersInvocationQuantiles
deriving Repr, DecidableEq

/-- One `imagesRequestsAdaptiveGroups` group (`api.ts`). -/
structure ImagesRequestsGroup where
  requests : ℚ
deriving Repr, DecidableEq

/-- One `aiInferenceAdaptiveGroups` group (`api.ts`). -/
structure AIInferenceGroup where
  totalNeurons : ℚ
deriving Repr, DecidableEq

/-- One `vectorizeV2QueriesAdaptiveGroups` group (`api.ts`). -/
structure VectorizeQueriesGroup where
  queriedVectorDimensions : ℚ
deriving Repr, DecidableEq

/-- One `vectorizeV2StorageAdaptiveGroups` group (`api.ts`). -/
structure VectorizeStorageGroup where
  storedVectorDimensions : ℚ
deriving Repr, DecidableEq

/-! ## Product aggregator cores (`api.ts`)

Each `$fetchXUsage` server function is a network fetch followed by a pure
aggregation; the cores below are those aggregations, taking the
already-extracted group lists (`extractAccountData(...)  ?? []`). -/

/-- The classA/classB accumulation loop of `$fetchR2Usage`. -/
def r2ClassStep (acc : ℚ × ℚ) (item : R2OperationsGroup) : ℚ × ℚ :=
  let action := item.dimensions.actionType
  if R2_CLASS_A_OPERATIONS.contains action then
    (acc.1 + item.sum.requests, acc.2)
  else if R2_CLASS_B_OPERATIONS.contains action then
    (acc.1, acc.2 + item.sum.requests)
  else acc

/-- Pure core of `$fetchR2Usage` (`api.ts` lines 82-106). -/
def fetchR2Usage (operations : List R2OperationsGroup)
    (storage : List R2StorageGroup) : ProductUsage :=
  let totals := operations.foldl r2ClassStep (0, 0)
  let classATotal := totals.1
  let classBTotal := totals.2
  let storageGB := bytesToGB (match storage with
    | [] => 0
    | g :: _ => g.max.payloadSize)
  let classAOverage :=
    calculateOverage classATotal R2_LIMITS.classAOperations R2_LIMITS.classAOveragePer1M
  let classBOverage :=
    calculateOverage classBTotal R2_LIMITS.classBOperations R2_LIMITS.classBOveragePer1M
  let storageOverage :=
    calculateStorageOverage storageGB R2_LIMITS.storageGB R2_LIMITS.storagePerGB
  buildProductUsage "R2 Storage"
    [buildMetric { name := "Class A Operations", current := classATotal, limit := R2_LIMITS.classAOperations, unit := "requests", rate := "$4.50/1M requests" } classAOverage,
     buildMetric { name := "Class B Operations", current := classBTotal, limit := R2_LIMITS.classBOperations, unit := "requests", rate := "$0.36/1M requests" } classBOverage,
     buildMetric { name := "Storage", current := storageGB, limit := R2_LIMITS.storageGB, unit := "GB", rate := "$0.015/GB-month" } storageOverage]

/-- Pure core of `$fetchWorkersUsage` (`api.ts` lines 125-142). -/
def fetchWorkersUsage (invocations : List WorkersInvocationGroup) : ProductUsage :=
  let totals := invocations.foldl
    (fun acc item =>
      (acc.1 + item.sum.requests, acc.2 + item.quantiles.cpuTimeP50 * item.sum.requests))
    ((0 : ℚ), (0 : ℚ))
  let totalRequests := totals.1
  let totalCpuMs := totals.2 / 1000
  let requestsOverage := calculateOverage totalRequests
    WORKERS_PAID_LIMITS.requestsPerMonth WORKERS_PAID_LIMITS.requestOveragePer1M
  let cpuOverage := calculateOverage totalCpuMs
    WORKERS_PAID_LIMITS.cpuMsPerMonth WORKERS_PAID_LIMITS.cpuOveragePer1M
  buildProductUsage "Workers"
    [buildMetric { name := "Requests", current := totalRequests, limit := WORKERS_PAID_LIMITS.requestsPerMonth, unit := "requests", rate := "$0.30/1M requests" } requestsOverage,
     buildMetric { name := "CPU Time (est.)", current := totalCpuMs, limit := WORKERS_PAID_LIMITS.cpuMsPerMonth, unit := "ms", rate := "$0.02/1M ms" } cpuOverage]

/-- `needle.isPrefixOf hay || sub at some later start`: character-list
substring containment. -/
def charsContain (needle : List Char) : List Char → Bool
  | [] => needle.isEmpty
  | c :: rest => needle.isPrefixOf (c :: rest) || charsContain needle rest

/-- Lowercased-substring test: `action.toLowerCase().includes(pat)` for the
ASCII action labels at stake. -/
def strContains (s pat : String) : Bool :=
  charsContain pat.toList s.toList

/-- The reads/writes/deletes/lists bucket totals accumulated by the loop in
`$fetchKVUsage` (`api.ts` lines 173-180). -/
structure KVTotals where
  reads : ℚ
  writes : ℚ
  deletes : ℚ
  lists : ℚ
deriving Repr, DecidableEq

/-- One iteration of the `$fetchKVUsage` classification loop. -/
def kvStep (acc : KVTotals) (item : KVOperationsGroup) : KVTotals :=
  let action := item.dimensions.actionType.toLower
  if strContains action "read" || strContains action "get" then
    { acc with reads := acc.reads + item.sum.requests }
  else if strContains action "write" || strContains action "put" then
    { acc with writes := acc.writes + item.sum.requests }
  else if strContains action "delete" then
    { acc with deletes := acc.deletes + item.sum.requests }
  else if strContains action "list" then
    { acc with lists := acc.lists + item.sum.requests }
  else acc

/-- The bucket totals of `$fetchKVUsage` over a whole operations list. -/
def kvBucketTotals (operations : List KVOperationsGroup) : KVTotals :=
  operations.foldl kvStep ⟨0, 0, 0, 0⟩

/-- Pure core of `$fetchKVUsage` (`api.ts` lines 170-197). -/
def fetchKVUsage (operations : List KVOperationsGroup)
    (storage : List KVStorageGroup) : ProductUsage :=
  let t := kvBucketTotals operations
  let storageGB := bytesToGB (match storage with
    | [] => 0
    | g :: _ => g.max.byteCount)
  let readsOverage := calculateOverage t.reads
    KV_PAID_LIMITS.readsPerMonth KV_PAID_LIMITS.readOveragePer1M
  let writesOverage := calculateOverage t.writes
    KV_PAID_LIMITS.writesPerMonth KV_PAID_LIMITS.writeOveragePer1M
  let deletesOverage := calculateOverage t.deletes
    KV_PAID_LIMITS.deletesPerMonth KV_PAID_LIMITS.deleteOveragePer1M
  let listsOverage := calculateOverage t.lists
    KV_PAID_LIMITS.listsPerMonth KV_PAID_LIMITS.listOveragePer1M
  let storageOverage :=
    calculateStorageOverage storageGB KV_PAID_LIMITS.storageGB KV_PAID_LIMITS.storagePerGB
  buildProductUsage "Workers KV"
    [buildMetric { name := "Reads", current := t.reads, limit := KV_PAID_LIMITS.readsPerMonth, unit := "requests", rate := "$0.50/1M reads" } readsOverage,
     buildMetric { name := "Writes", current := t.writes, limit := KV_PAID_LIMITS.writesPerMonth, unit := "requests", rate := "$5.00/1M writes" } writesOverage,
     buildMetric { name := "Deletes", current := t.deletes, limit := KV_PAID_LIMITS.deletesPerMonth, unit := "requests", rate := "$5.00/1M deletes" } deletesOverage,
     buildMetric { name := "Lists", current := t.lists, limit := KV_PAID_LIMITS.listsPerMonth, unit := "requests", rate := "$5.00/1M lists" } listsOverage,
     buildMetric { name := "Storage", current := storageGB, limit := KV_PAID_LIMITS.storageGB, unit := "GB", rate := "$0.50/GB-month" } storageOverage]

/-- Pure core of `$fetchD1Usage` (`api.ts` lines 226-242). -/
def fetchD1Usage (analytics : List D1AnalyticsGroup)
    (storage : List D1StorageGroup) : ProductUsage :=
  let totalRowsRead := sumField analytics (fun i => i.sum.rowsRead)
  let totalRowsWritten := sumField analytics (fun i => i.sum.rowsWritten)
  let storageGB := bytesToGB (sumField storage (fun i => i.max.databaseSizeBytes))
  let rowsReadOverage := calculateOverage totalRowsRead
    D1_LIMITS.rowsReadPerMonth D1_LIMITS.rowsReadOveragePer1M
  let rowsWrittenOverage := calculateOverage totalRowsWritten
    D1_LIMITS.rowsWrittenPerMonth D1_LIMITS.rowsWrittenOveragePer1M
  let storageOverage :=
    calculateStorageOverage storageGB D1_LIMITS.storageGB D1_LIMITS.storageOveragePerGB
  buildProductUsage "D1 Database"
    [buildMetric { name := "Rows Read", current := totalRowsRead, limit := D1_LIMITS.rowsReadPerMonth, unit := "rows", rate := "$0.001/1M rows" } rowsReadOverage,
     buildMetric { name := "Rows Written", current := totalRowsWritten, limit := D1_LIMITS.rowsWrittenPerMonth, unit := "rows", rate := "$1.00/1M rows" } rowsWrittenOverage,
     buildMetric { name := "Storage", current := storageGB, limit := D1_LIMITS.storageGB, unit := "GB", rate := "$0.75/GB-month" } storageOverage]

/-- Pure core of `$fetchImagesUsage` (`api.ts` lines 258-265). -/
def fetchImagesUsage (images : List ImagesRequestsGroup) : ProductUsage :=
  let totalRequests := sumField images (fun i => i.requests)
  let deliveredCost := calculatePer100KCost totalRequests IMAGES_LIMITS.deliveredPer100K
  buildProductUsage "Images"
    [buildMetric { name := "Requests", current := totalRequests, limit := 0, unit := "requests", rate := "$1.00/100K requests" } deliveredCost]

/-- Pure core of `$fetchWorkersAIUsage` (`api.ts` lines 281-292); the free
allowance is `neuronsPerDay` times the day count of the current month,
`new Date(y, m + 1, 0).getDate()`. -/
def fetchWorkersAIUsage (aiData : List AIInferenceGroup) (now : LocalDate) : ProductUsage :=
  let totalNeurons := sumField aiData (fun i => i.totalNeurons)
  let daysInMonth : Nat := (jsDateMonthDay0 now.year (now.month + 1)).day
  let monthlyFreeNeurons : ℚ := WORKERS_AI_LIMITS.neuronsPerDay * daysInMonth
  let neuronCost :=
    calculatePer1KCost totalNeurons monthlyFreeNeurons WORKERS_AI_LIMITS.neuronOveragePer1K
  buildProductUsage "Workers AI"
    [buildMetric { name := "Neurons", current := totalNeurons, limit := monthlyFreeNeurons, unit := "neurons", rate := "$0.011/1K neurons" } neuronCost]

/-- Pure core of `$fetchVectorizeUsage` (`api.ts` lines 319-332). -/
def fetchVectorizeUsage (queries : List VectorizeQueriesGroup)
    (storage : List VectorizeStorageGroup) : ProductUsage :=
  let queriedDimensions := sumField queries (fun i => i.queriedVectorDimensions)
  let storedDimensions := sumField storage (fun i => i.storedVectorDimensions)
  let queriedOverage := calculateOverage queriedDimensions
    VECTORIZE_LIMITS.queriedDimensionsPerMonth VECTORIZE_LIMITS.queriedOveragePer1M
  let storedOverage := calculateOverage storedDimensions
    VECTORIZE_LIMITS.storedDimensionsPerMonth VECTORIZE_LIMITS.storedOveragePer1M
  buildProductUsage "Vectorize"
    [buildMetric { name := "Queried Dimensions", current := queriedDimensions, limit := VECTORIZE_LIMITS.queriedDimensionsPerMonth, unit := "dimensions", rate := "$0.01/1M dimensions" } queriedOverage,
     buildMetric { name := "Stored Dimensions", current := storedDimensions, limit := VECTORIZE_LIMITS.storedDimensionsPerMonth, unit := "dimensions", rate := "$0.05/1M dim-month" } storedOverage]

/-! ## Account aggregator (`$fetchAllUsage`, `api.ts` lines 334-370) -/

/-- Outcome of one product aggregator as observed by `$fetchAllUsage`:
either a `ProductUsage` or the message of the raised `Error`. -/
abbrev FetchResult := Except String ProductUsage

/-- The product slot written by `$fetchXUsage().catch(captureError(s))`:
`null` on failure, the usage on success. -/
def slotOf (r : FetchResult) : Option ProductUsage :=
  r.toOption

/-- The `ServiceError` entries `captureError service` pushes for one
aggregator: one entry carrying the error message on failure, none on
success. -/
def errorsOf (service : String) (r : FetchResult) : List ServiceError :=
  match r with
  | .ok _ => []
  | .error msg => [{ service := service, message := msg }]

/-- The `?? 0` fallback in the overage reduction of `$fetchAllUsage`. -/
def optOverage (item : Option ProductUsage) : ℚ :=
  match item with
  | some p => p.totalOverageCost
  | none => 0

/-- Pure core of `$fetchAllUsage`: combines the seven aggregator outcomes
(each already settled to success-or-error by `.catch(captureError(...))`)
into the account summary. Total for every outcome combination — the
function never raises once the account-id precondition has passed. -/
def fetchAllUsage (r2 workers kv d1 images ai vectorize : FetchResult)
    (now : LocalDate) : CloudflareUsageData :=
  let errors :=
    errorsOf "R2 Storage" r2 ++ errorsOf "Workers" workers ++
    errorsOf "Workers KV" kv ++ errorsOf "D1 Database" d1 ++
    errorsOf "Images" images ++ errorsOf "Workers AI" ai ++
    errorsOf "Vectorize" vectorize
  let overageCosts :=
    [slotOf r2, slotOf workers, slotOf kv, slotOf d1,
     slotOf images, slotOf ai, slotOf vectorize].foldl
      (fun sum item => sum + optOverage item) 0
  { r2 := slotOf r2, workers := slotOf workers, kv := slotOf kv,
    d1 := slotOf d1, images := slotOf images, ai := slotOf ai,
    vectorize := slotOf vectorize,
    errors := errors,
    totalEstimatedCost := WORKERS_PAID_LIMITS.baseCost + overageCosts,
    billingPeriod := billingPeriodOf now }

/-! ## Specification-side definitions used by the claim statements -/

/-- The four buckets the KV classification loop can credit an operation
to. -/
inductive KVBucket where
  | reads
  | writes
  | deletes
  | lists
deriving Repr, DecidableEq

/-- The bucket the `$fetchKVUsage` loop assigns to one action-type label:
case-insensitive substring match, in priority order read/get, write/put,
delete, list; `none` when no pattern matches (the operation is dropped). -/
def classifyKV (actionType : String) : Option KVBucket :=
  let action := actionType.toLower
  if strContains action "read" || strContains action "get" then some KVBucket.reads
  else if strContains action "write" || strContains action "put" then some KVBucket.writes
  else if strContains action "delete" then some KVBucket.deletes
  else if strContains action "list" then some KVBucket.lists
  else none

/-- Sum of the request counts of the operations `classifyKV` assigns to
bucket `b`. -/
def kvBucketSum (b : KVBucket) (operations : List KVOperationsGroup) : ℚ :=
  ((operations.filter (fun o => classifyKV o.dimensions.actionType == some b)).map
    (fun o => o.sum.requests)).sum

/-- The per-bucket contribution of a single operation, as decided by
`classifyKV`. -/
def kvContribution (o : KVOperationsGroup) : KVTotals :=
  match classifyKV o.dimensions.actionType with
  | some KVBucket.reads => ⟨o.sum.requests, 0, 0, 0⟩
  | some KVBucket.writes => ⟨0, o.sum.requests, 0, 0⟩
  | some KVBucket.deletes => ⟨0, 0, o.sum.requests, 0⟩
  | some KVBucket.lists => ⟨0, 0, 0, o.sum.requests⟩
  | none => ⟨0, 0, 0, 0⟩

/-- A metric whose current value, percentage and overage cost are all
zero. -/
def isZeroMetric (m : UsageMetric) : Bool :=
  m.current == 0 && m.percentage == 0 && m.overageCost == 0

/-! ## Helper lemmas -/

lemma foldl_add_map {α : Type} (f : α → ℚ) (l : List α) (a : ℚ) :
    l.foldl (fun s x => s + f x) a = a + (l.map f).sum := by
  induction l generalizing a with
  | nil => simp
  | cons h t ih => simp [ih]; ring

lemma optOverage_sum (l : List (Option ProductUsage)) :
    (l.map optOverage).sum
      = ((l.filterMap id).map (fun p => p.totalOverageCost)).sum := by
  induction l with
  | nil => rfl
  | cons h t ih => cases h <;> simp [optOverage, ih]

lemma kvStep_eq (acc : KVTotals) (o : KVOperationsGroup) :
    kvStep acc o =
      ⟨acc.reads + (kvContribution o).reads,
       acc.writes + (kvContribution o).writes,
       acc.deletes + (kvContribution o).deletes,
       acc.lists + (kvContribution o).lists⟩ := by
  unfold kvStep kvContribution classifyKV
  dsimp only
  split_ifs <;> simp

lemma kvFold_eq (operations : List KVOperationsGroup) : ∀ acc : KVTotals,
    operations.foldl kvStep acc =
      ⟨acc.reads + kvBucketSum KVBucket.reads operations,
       acc.writes + kvBucketSum KVBucket.writes operations,
       acc.deletes + kvBucketSum KVBucket.deletes operations,
       acc.lists + kvBucketSum KVBucket.lists operations⟩ := by
  induction operations with
  | nil => intro acc; simp [kvBucketSum]
  | cons o t ih =>
    intro acc
    rw [List.foldl_cons, kvStep_eq, ih]
    rcases hcl : classifyKV o.dimensions.actionType with _ | b
    · simp [kvBucketSum, kvContribution, List.filter_cons, hcl]
    · cases b <;>
        simp [kvBucketSum, kvContribution, List.filter_cons, hcl, KVTotals.mk.injEq] <;>
        ring

lemma errorsOf_filter_self (service : String) (r : FetchResult) :
    (errorsOf service r).filter (fun e => e.service == service) = errorsOf service r := by
  cases r <;> simp [errorsOf]

lemma errorsOf_filter_ne (service other : String) (r : FetchResult)
    (h : (service == other) = false) :
    (errorsOf service r).filter (fun e => e.service == other) = [] := by
  cases r <;> simp [errorsOf, h]

/-! ## Claim theorems -/

/-- Claim C1: for every outcome of the seven product aggregations, the
summary returned by the account aggregator satisfies
`totalEstimatedCost = baseCost + Σ totalOverageCost` over the non-null
product slots; in particular with all seven products null the total is
exactly the base fee, and the value depends only on the non-null slots. -/
theorem fetchAllUsage_totalEstimatedCost (r2 workers kv d1 images ai vectorize : FetchResult)
    (now : LocalDate) :
    ((fetchAllUsage r2 workers kv d1 images ai vectorize now).totalEstimatedCost
      = WORKERS_PAID_LIMITS.baseCost +
        (([(fetchAllUsage r2 workers kv d1 images ai vectorize now).r2,
            (fetchAllUsage r2 workers kv d1 images ai vectorize now).workers,
            (fetchAllUsage r2 workers kv d1 images ai vectorize now).kv,
            (fetchAllUsage r2 workers kv d1 images ai vectorize now).d1,
            (fetchAllUsage r2 workers kv d1 images ai vectorize now).images,
            (fetchAllUsage r2 workers kv d1 images ai vectorize now).ai,
            (fetchAllUsage r2 workers kv d1 images ai vectorize now).vectorize].filterMap id).map
          (fun p => p.totalOverageCost)).sum)
      ∧ (∀ m1 m2 m3 m4 m5 m6 m7 : String,
          (fetchAllUsage (.error m1) (.error m2) (.error m3) (.error m4) (.error m5)
              (.error m6) (.error m7) now).totalEstimatedCost
            = WORKERS_PAID_LIMITS.baseCost) := by
  constructor
  · simp only [fetchAllUsage]
    rw [foldl_add_map optOverage
      [slotOf r2, slotOf workers, slotOf kv, slotOf d1, slotOf images, slotOf ai, slotOf vectorize] 0,
      optOverage_sum]
    simp
  · intro m1 m2 m3 m4 m5 m6 m7
    simp [fetchAllUsage, slotOf, optOverage, Except.toOption]

/-- Claim C2: for every subset of failing aggregators, the account
aggregator still returns a full summary: each product slot is exactly the
`Option` view of its aggregator outcome (success passes the `ProductUsage`
through unchanged, failure yields `null`), and filtering the error list by
a product service name yields exactly the one `ServiceError` carrying the
failing aggregator message — or nothing when that aggregator succeeded. The
combining function is total, so no combination of upstream failures makes
it raise. -/
theorem fetchAllUsage_error_isolation (r2 workers kv d1 images ai vectorize : FetchResult)
    (now : LocalDate) :
    ((fetchAllUsage r2 workers kv d1 images ai vectorize now).r2 = r2.toOption) ∧
    ((fetchAllUsage r2 workers kv d1 images ai vectorize now).workers = workers.toOption) ∧
    ((fetchAllUsage r2 workers kv d1 images ai vectorize now).kv = kv.toOption) ∧
    ((fetchAllUsage r2 workers kv d1 images ai vectorize now).d1 = d1.toOption) ∧
    ((fetchAllUsage r2 workers kv d1 images ai vectorize now).images = images.toOption) ∧
    ((fetchAllUsage r2 workers kv d1 images ai vectorize now).ai = ai.toOption) ∧
    ((fetchAllUsage r2 workers kv d1 images ai vectorize now).vectorize = vectorize.toOption) ∧
    ((fetchAllUsage r2 workers kv d1 images ai vectorize now).errors
      = errorsOf "R2 Storage" r2 ++ errorsOf "Workers" workers ++ errorsOf "Workers KV" kv ++
        errorsOf "D1 Database" d1 ++ errorsOf "Images" images ++ errorsOf "Workers AI" ai ++
        errorsOf "Vectorize" vectorize) ∧
    ((fetchAllUsage r2 workers kv d1 images ai vectorize now).errors.filter
        (fun e => e.service == "R2 Storage") = errorsOf "R2 Storage" r2) ∧
    ((fetchAllUsage r2 workers kv d1 images ai vectorize now).errors.filter
        (fun e => e.service == "Workers") = errorsOf "Workers" workers) ∧
    ((fetchAllUsage r2 workers kv d1 images ai vectorize now).errors.filter
        (fun e => e.service == "Workers KV") = errorsOf "Workers KV" kv) ∧
    ((fetchAllUsage r2 workers kv d1 images ai vectorize now).errors.filter
        (fun e => e.service == "D1 Database") = errorsOf "D1 Database" d1) ∧
    ((fetchAllUsage r2 workers kv d1 images ai vectorize now).errors.filter
        (fun e => e.service == "Images") = errorsOf "Images" images) ∧
    ((fetchAllUsage r2 workers kv d1 images ai vectorize now).errors.filter
        (fun e => e.service == "Workers AI") = errorsOf "Workers AI" ai) ∧
    ((fetchAllUsage r2 workers kv d1 images ai vectorize now).errors.filter
        (fun e => e.service == "Vectorize") = errorsOf "Vectorize" vectorize) ∧
    (∀ msg : String, errorsOf "R2 Storage" (Except.error msg)
      = [{ service := "R2 Storage", message := msg }]) ∧
    (∀ p : ProductUsage, errorsOf "R2 Storage" (Except.ok p) = []) := by
  refine ⟨rfl, rfl, rfl, rfl, rfl, rfl, rfl, rfl, ?_, ?_, ?_, ?_, ?_, ?_, ?_,
    fun msg => rfl, fun p => rfl⟩ <;>
    simp [fetchAllUsage, List.filter_append, errorsOf_filter_self, errorsOf_filter_ne]

/-- Claim C3: for non-negative current, limit and rate, the four overage
calculators compute exactly their documented formulas, every result is
non-negative, and the three limit-based calculators return 0 whenever
`current ≤ limit`. -/
theorem overageCalculators_spec (current limit rate : ℚ)
    (hc : 0 ≤ current) (hl : 0 ≤ limit) (hr : 0 ≤ rate) :
    calculateOverage current limit rate = max 0 (current - limit) / 1000000 * rate ∧
    calculateStorageOverage current limit rate = max 0 (current - limit) * rate ∧
    calculatePer1KCost current limit rate = max 0 (current - limit) / 1000 * rate ∧
    calculatePer100KCost current rate = current / 100000 * rate ∧
    0 ≤ calculateOverage current limit rate ∧
    0 ≤ calculateStorageOverage current limit rate ∧
    0 ≤ calculatePer1KCost current limit rate ∧
    0 ≤ calculatePer100KCost current rate ∧
    (current ≤ limit →
      calculateOverage current limit rate = 0 ∧
      calculateStorageOverage current limit rate = 0 ∧
      calculatePer1KCost current limit rate = 0) := by
  have hmax : 0 ≤ max 0 (current - limit) := le_max_left 0 (current - limit)
  refine ⟨rfl, rfl, rfl, rfl, ?_, ?_, ?_, ?_, ?_⟩
  · exact mul_nonneg (div_nonneg hmax (by norm_num)) hr
  · exact mul_nonneg hmax hr
  · exact mul_nonneg (div_nonneg hmax (by norm_num)) hr
  · exact mul_nonneg (div_nonneg hc (by norm_num)) hr
  · intro h
    have hz : max 0 (current - limit) = 0 := max_eq_left (sub_nonpos.mpr h)
    refine ⟨?_, ?_, ?_⟩ <;>
      simp [calculateOverage, calculateStorageOverage, calculatePer1KCost, hz]

/-- Witness for C3 at the spec scenario 12,000,000 reads against a
10,000,000 limit at $0.50/1M: one dollar of overage. -/
theorem overageCalculators_spec_witness :
    ((0 : ℚ) ≤ 12000000 ∧ (0 : ℚ) ≤ 10000000 ∧ (0 : ℚ) ≤ 1 / 2) ∧
    calculateOverage 12000000 10000000 (1 / 2) = 1 := by
  have h := overageCalculators_spec 12000000 10000000 (1 / 2)
    (by norm_num) (by norm_num) (by norm_num)
  refine ⟨⟨by norm_num, by norm_num, by norm_num⟩, ?_⟩
  rw [h.1]
  norm_num

/-- Claim C4: `buildMetric` reports `percentage = current / limit * 100`
when `limit > 0` and `percentage = 0` whenever `limit ≤ 0`, and passes
every other field through unchanged. -/
theorem buildMetric_spec (input : MetricInput) (overageCost : ℚ)
    (hc : 0 ≤ input.current) :
    (0 < input.limit →
      (buildMetric input overageCost).percentage = input.current / input.limit * 100) ∧
    (input.limit ≤ 0 → (buildMetric input overageCost).percentage = 0) ∧
    (buildMetric input overageCost).name = input.name ∧
    (buildMetric input overageCost).current = input.current ∧
    (buildMetric input overageCost).limit = input.limit ∧
    (buildMetric input overageCost).unit = input.unit ∧
    (buildMetric input overageCost).overageCost = overageCost ∧
    (buildMetric input overageCost).rate = input.rate := by
  refine ⟨?_, ?_, rfl, rfl, rfl, rfl, rfl, rfl⟩
  · intro hl
    simp [buildMetric, hl]
  · intro hl
    simp [buildMetric, not_lt.mpr hl]

/-- Witness for C4: a metric at 5 of 10 reports 50 percent. -/
theorem buildMetric_spec_witness :
    (0 : ℚ) ≤ 5 ∧
    (buildMetric ⟨"Requests", 5, 10, "requests", "$0.30/1M requests"⟩ 2).percentage
      = 5 / 10 * 100 := by
  have h := buildMetric_spec ⟨"Requests", 5, 10, "requests", "$0.30/1M requests"⟩ 2
    (by norm_num)
  exact ⟨by norm_num, h.1 (by norm_num)⟩

/-- Claim C5: `buildProductUsage` returns a `ProductUsage` whose
`totalOverageCost` is exactly the sum of the overage costs of its metrics,
with the metrics list and product name unchanged. Over ℚ the left-to-right
reduction of the source equals the list sum exactly, with zero error. -/
theorem buildProductUsage_spec (product : String) (metrics : List UsageMetric) :
    (buildProductUsage product metrics).totalOverageCost
      = (metrics.map (fun m => m.overageCost)).sum ∧
    (buildProductUsage product metrics).metrics = metrics ∧
    (buildProductUsage product metrics).product = product := by
  refine ⟨?_, rfl, rfl⟩
  show metrics.foldl (fun sum m => sum + m.overageCost) 0 = _
  rw [foldl_add_map (fun m => m.overageCost) metrics 0, zero_add]

/-- Claim C6: every KV operation is assigned to exactly one bucket by the
priority classification `classifyKV` (case-insensitive substring match:
read/get, else write/put, else delete, else list, else dropped), and each
bucket total of the aggregation loop equals the sum of the request counts
of the operations assigned to that bucket. -/
theorem kvClassification_spec (operations : List KVOperationsGroup) :
    (kvBucketTotals operations).reads = kvBucketSum KVBucket.reads operations ∧
    (kvBucketTotals operations).writes = kvBucketSum KVBucket.writes operations ∧
    (kvBucketTotals operations).deletes = kvBucketSum KVBucket.deletes operations ∧
    (kvBucketTotals operations).lists = kvBucketSum KVBucket.lists operations := by
  unfold kvBucketTotals
  rw [kvFold_eq operations ⟨0, 0, 0, 0⟩]
  simp

/-- Claim C7 (code bug evidence): at the concrete invocation date
2026-10-11 (month index 9), the `billingPeriod` the account aggregator
returns ends at 00:00:00.000 on the last day of the month — the
`new Date(year, month + 1, 0)` construction — while the repository's own
`getMonthEnd` (used as the upper bound of the data-fetch window, and what
the claim describes) ends the month at 23:59:59.999. -/
theorem billingPeriod_end_is_midnight :
    (fetchAllUsage (Except.error "a") (Except.error "b") (Except.error "c")
        (Except.error "d") (Except.error "e") (Except.error "f") (Except.error "g")
        ⟨2026, 9, 11⟩).billingPeriod
      = { start := ⟨2026, 9, 1, 0, 0, 0, 0⟩, ending := ⟨2026, 9, 31, 0, 0, 0, 0⟩ } ∧
    getMonthEndParts ⟨2026, 9, 11⟩ = ⟨2026, 9, 31, 23, 59, 59, 999⟩ := by
  exact ⟨rfl, rfl⟩

/-- Claim C8: every product aggregator, fed a successful fetch with empty
result sets, returns a `ProductUsage` in which every metric has
`current = 0`, `percentage = 0` and `overageCost = 0` (for Workers AI this
holds at every invocation date, hence for every derived days-in-month
threshold). -/
theorem emptyInput_allZeroMetrics :
    (fetchR2Usage [] []).metrics.all isZeroMetric = true ∧
    (fetchWorkersUsage []).metrics.all isZeroMetric = true ∧
    (fetchKVUsage [] []).metrics.all isZeroMetric = true ∧
    (fetchD1Usage [] []).metrics.all isZeroMetric = true ∧
    (fetchImagesUsage []).metrics.all isZeroMetric = true ∧
    (∀ now : LocalDate, (fetchWorkersAIUsage [] now).metrics.all isZeroMetric = true) ∧
    (fetchVectorizeUsage [] []).metrics.all isZeroMetric = true := by
  refine ⟨?_, ?_, ?_, ?_, ?_, ?_, ?_⟩
  · norm_num [fetchR2Usage, buildProductUsage, buildMetric, isZeroMetric, bytesToGB,
      calculateOverage, calculateStorageOverage, r2ClassStep,
      R2_LIMITS.classAOperations, R2_LIMITS.classBOperations, R2_LIMITS.storageGB,
      R2_LIMITS.classAOveragePer1M, R2_LIMITS.classBOveragePer1M, R2_LIMITS.storagePerGB]
  · norm_num [fetchWorkersUsage, buildProductUsage, buildMetric, isZeroMetric,
      calculateOverage, WORKERS_PAID_LIMITS.requestsPerMonth, WORKERS_PAID_LIMITS.cpuMsPerMonth,
      WORKERS_PAID_LIMITS.requestOveragePer1M, WORKERS_PAID_LIMITS.cpuOveragePer1M]
  · norm_num [fetchKVUsage, kvBucketTotals, buildProductUsage, buildMetric, isZeroMetric,
      bytesToGB, calculateOverage, calculateStorageOverage,
      KV_PAID_LIMITS.readsPerMonth, KV_PAID_LIMITS.writesPerMonth,
      KV_PAID_LIMITS.deletesPerMonth, KV_PAID_LIMITS.listsPerMonth, KV_PAID_LIMITS.storageGB,
      KV_PAID_LIMITS.readOveragePer1M, KV_PAID_LIMITS.writeOveragePer1M,
      KV_PAID_LIMITS.deleteOveragePer1M, KV_PAID_LIMITS.listOveragePer1M,
      KV_PAID_LIMITS.storagePerGB]
  · norm_num [fetchD1Usage, sumField, buildProductUsage, buildMetric, isZeroMetric,
      bytesToGB, calculateOverage, calculateStorageOverage,
      D1_LIMITS.rowsReadPerMonth, D1_LIMITS.rowsWrittenPerMonth, D1_LIMITS.storageGB,
      D1_LIMITS.rowsReadOveragePer1M, D1_LIMITS.rowsWrittenOveragePer1M,
      D1_LIMITS.storageOveragePerGB]
  · norm_num [fetchImagesUsage, sumField, buildProductUsage, buildMetric, isZeroMetric,
      calculatePer100KCost, IMAGES_LIMITS.deliveredPer100K]
  · intro now
    have hd : (0 : ℚ) ≤ ((jsDateMonthDay0 now.year (now.month + 1)).day : ℚ) :=
      Nat.cast_nonneg _
    have hmax : max 0 ((0 : ℚ) - WORKERS_AI_LIMITS.neuronsPerDay *
        ((jsDateMonthDay0 now.year (now.month + 1)).day : ℚ)) = 0 := by
      apply max_eq_left
      rw [zero_sub, neg_nonpos]
      exact mul_nonneg (by norm_num [WORKERS_AI_LIMITS.neuronsPerDay]) hd
    norm_num [fetchWorkersAIUsage, sumField, buildProductUsage, buildMetric, isZeroMetric,
      calculatePer1KCost, hmax]
    left
    exact mul_nonneg (by norm_num [WORKERS_AI_LIMITS.neuronsPerDay]) hd
  · norm_num [fetchVectorizeUsage, sumField, buildProductUsage, buildMetric, isZeroMetric,
      calculateOverage, VECTORIZE_LIMITS.queriedDimensionsPerMonth,
      VECTORIZE_LIMITS.storedDimensionsPerMonth, VECTORIZE_LIMITS.queriedOveragePer1M,
      VECTORIZE_LIMITS.storedOveragePer1M]

/-- Claim C9 counterexample: the calculators do not reject negative
inputs — they return ordinary values: a negative current is clamped to
zero overage by `calculateOverage`, and `calculatePer100KCost` even
returns a negative cost for a negative current. -/
theorem calculators_accept_negative_inputs :
    calculateOverage (-1) 0 1 = 0 ∧ calculatePer100KCost (-100000) 1 = -1 := by
  constructor
  · norm_num [calculateOverage]
  · norm_num [calculatePer100KCost]

/-- Claim C9 as amended: the four calculators perform no input validation
and never raise — they are total on all rational inputs, computing their
formulas verbatim; the three `max(0, current - limit)` calculators clamp
to zero cost whenever `current ≤ limit` (negative inputs included), and
zero or missing data (absent counters treated as 0) yields zero cost. -/
theorem calculators_total_no_validation (current limit rate : ℚ) :
    calculateOverage current limit rate = max 0 (current - limit) / 1000000 * rate ∧
    calculateStorageOverage current limit rate = max 0 (current - limit) * rate ∧
    calculatePer1KCost current limit rate = max 0 (current - limit) / 1000 * rate ∧
    calculatePer100KCost current rate = current / 100000 * rate ∧
    (current ≤ limit →
      calculateOverage current limit rate = 0 ∧
      calculateStorageOverage current limit rate = 0 ∧
      calculatePer1KCost current limit rate = 0) ∧
    (0 ≤ limit →
      calculateOverage 0 limit rate = 0 ∧
      calculateStorageOverage 0 limit rate = 0 ∧
      calculatePer1KCost 0 limit rate = 0) ∧
    calculatePer100KCost 0 rate = 0 := by
  refine ⟨rfl, rfl, rfl, rfl, ?_, ?_, by norm_num [calculatePer100KCost]⟩
  · intro h
    have hz : max 0 (current - limit) = 0 := max_eq_left (sub_nonpos.mpr h)
    refine ⟨?_, ?_, ?_⟩ <;>
      simp [calculateOverage, calculateStorageOverage, calculatePer1KCost, hz]
  · intro h
    have hz : max 0 ((0 : ℚ) - limit) = 0 := by
      apply max_eq_left
      rw [zero_sub, neg_nonpos]
      exact h
    refine ⟨?_, ?_, ?_⟩ <;>
      simp [calculateOverage, calculateStorageOverage, calculatePer1KCost, hz] <;>
      exact Or.inl h

/-- Witness for the amended C9: negative inputs flow through without any
rejection, and zero data costs zero. -/
theorem calculators_total_no_validation_witness :
    calculateOverage (-5) (-1) 2 = 0 ∧ calculatePer100KCost 0 2 = 0 := by
  have h := calculators_total_no_validation (-5) (-1) 2
  exact ⟨(h.2.2.2.2.1 (by norm_num)).1, h.2.2.2.2.2.2⟩

/-- Claim C10: for R2 and KV the storage metric (index 2 of the R2 metric
list, index 4 of the KV metric list) takes its current value solely from
the first storage group — `payloadSize` for R2, `byteCount` for KV,
converted to GB — ignoring every other group and field, and an empty
storage list yields a 0 GB storage metric. -/
theorem storageMetric_from_first_group :
    (∀ (operations : List R2OperationsGroup) (storage : List R2StorageGroup),
      ((fetchR2Usage operations storage).metrics[2]?).map (fun m => m.current)
        = some (bytesToGB (((storage.head?).map (fun g => g.max.payloadSize)).getD 0))) ∧
    (∀ (operations : List KVOperationsGroup) (storage : List KVStorageGroup),
      ((fetchKVUsage operations storage).metrics[4]?).map (fun m => m.current)
        = some (bytesToGB (((storage.head?).map (fun g => g.max.byteCount)).getD 0))) ∧
    (∀ operations : List R2OperationsGroup,
      ((fetchR2Usage operations []).metrics[2]?).map (fun m => m.current) = some 0) ∧
    (∀ operations : List KVOperationsGroup,
      ((fetchKVUsage operations []).metrics[4]?).map (fun m => m.current) = some 0) := by
  refine ⟨?_, ?_, ?_, ?_⟩
  · intro operations storage
    cases storage <;> simp [fetchR2Usage, buildProductUsage, buildMetric, bytesToGB]
  · intro operations storage
    cases storage <;> simp [fetchKVUsage, buildProductUsage, buildMetric, bytesToGB]
  · intro operations
    simp [fetchR2Usage, buildProductUsage, buildMetric, bytesToGB]
  · intro operations
    simp [fetchKVUsage, buildProductUsage, buildMetric, bytesToGB]
